import Mathlib

/-!
Verification of the n8n MCP storytelling server: a shallow embedding of
the status-mapping, progress, insight-extraction and request-shaping
logic of `src/mcp-server/src/tools/n8n-client.ts` and
`src/mcp-server/src/tools/storytelling-tools.ts`, together with theorems
settling the specified properties.

JavaScript conventions are embedded explicitly: nullable fields become
`Option`, JS truthiness of a `string | null` value is `strTruthy`
(empty string and null are falsy), object key sets become ordered lists
of keys, and JS numbers become `ℚ` with exact arithmetic.
-/

namespace Storytelling

/-- JS truthiness of a `string | null | undefined` value: `null`,
`undefined` and the empty string are falsy. -/
def strTruthy : Option String → Bool
  | none => false
  | some s => s ≠ ""

/-- JS `a || b` for a string expression `a` with default `b`:
returns `b` when `a` is absent or falsy (empty). -/
def strOrDefault (a : Option String) (b : String) : String :=
  match a with
  | none => b
  | some s => if s = "" then b else s

/-- Whether `pat` is a prefix of the character list `l` (helper for the
JS substring test). -/
def charsStartWith : (l pat : List Char) → Bool
  | _, [] => true
  | [], _ :: _ => false
  | x :: xs, y :: ys => x = y && charsStartWith xs ys

/-- Whether `pat` occurs contiguously in the character list (helper for
the JS substring test). -/
def charsContains (pat : List Char) : List Char → Bool
  | [] => charsStartWith [] pat
  | x :: xs => charsStartWith (x :: xs) pat || charsContains pat xs

/-- JS `String.prototype.includes`: substring containment; the empty
pattern is contained in every string. -/
def jsIncludes (s pat : String) : Bool :=
  charsContains pat.data s.data

/-- JS `String.prototype.split` with a single-character separator,
on character lists: always returns at least one (possibly empty) piece. -/
def splitOnChar (c : Char) : List Char → List (List Char)
  | [] => [[]]
  | x :: xs =>
    let r := splitOnChar c xs
    if x = c then [] :: r
    else
      match r with
      | [] => [[x]]
      | y :: ys => (x :: y) :: ys

/-- JS `url.split('.')`. -/
def jsSplitDot (s : String) : List String :=
  (splitOnChar '.' s.data).map (fun l => String.mk l)

/-- JS `String.prototype.toLowerCase` (ASCII, as used on extensions). -/
def jsToLower (s : String) : String :=
  String.mk (s.data.map Char.toLower)

/-! ## Data model (types/storytelling.ts) -/

/-- `ProcessingStatus.status`: one of pending/processing/completed/failed. -/
inductive JobStatus where
  | pending
  | processing
  | completed
  | failed
deriving DecidableEq, Repr

/-- One entry of `StoryAnalysis.people`. -/
structure Person where
  name : String
  role : String
  significance : String
deriving DecidableEq, Repr

/-- One entry of `StoryAnalysis.places`. -/
structure Place where
  location : String
  context : String
  importance : String
deriving DecidableEq, Repr

/-- One entry of `StoryAnalysis.purpose`. -/
structure Purpose where
  motivation : String
  goal : String
  transformation : String
deriving DecidableEq, Repr

/-- One entry of `StoryAnalysis.plot`. -/
structure PlotEvent where
  event : String
  timestamp : ℚ
  significance : String
deriving DecidableEq, Repr

/-- `Soundbite` from types/storytelling.ts. -/
structure Soundbite where
  text : String
  startTime : ℚ
  endTime : ℚ
  speaker : Option String
  emotionalImpact : ℚ
  pCategory : String
  theme : String
deriving DecidableEq, Repr

/-- `StoryAnalysis` from types/storytelling.ts. -/
structure StoryAnalysis where
  people : List Person
  places : List Place
  purpose : List Purpose
  plot : List PlotEvent
  soundbites : List Soundbite
  overallNarrative : String
deriving DecidableEq, Repr

/-- `StoryDeliverables` from types/storytelling.ts. -/
structure StoryDeliverables where
  spreadsheetUrl : Option String
  summaryDocUrl : Option String
  videoClipsUrls : Option (List String)
  finalSequenceUrl : Option String
deriving DecidableEq, Repr

/-! ## The n8n execution record, as accessed by n8n-client.ts -/

/-- `execution.data.resultData.error`: an error object whose `message`
field may itself be absent. -/
structure NodeError where
  message : Option String
deriving DecidableEq, Repr

/-- `execution.data.resultData`: `runData` is an object whose keys are
the names of completed nodes, embedded as the ordered key list;
a present-but-empty object is `some []`, an absent field is `none`. -/
structure ResultData where
  runData : Option (List String)
  error : Option NodeError
deriving DecidableEq, Repr

/-- `execution.data`: carries the per-node result data and, on a
finished execution, the analysis payload that `getExecutionStatus`
passes through as `results`. -/
structure ExecutionData where
  resultData : Option ResultData
  analysis : StoryAnalysis
  deliverables : StoryDeliverables
deriving DecidableEq, Repr

/-- The n8n execution record as used by n8n-client.ts:
`finished`, `stoppedAt` (a nullable timestamp string) and `data`. -/
structure N8NExecution where
  finished : Bool
  stoppedAt : Option String
  data : Option ExecutionData
deriving DecidableEq, Repr

/-- The optional-chaining path `execution.data?.resultData?.runData`. -/
def runDataOf (e : N8NExecution) : Option (List String) :=
  (e.data.bind (fun d => d.resultData)).bind (fun r => r.runData)

/-- The optional-chaining path
`execution.data?.resultData?.error?.message`. -/
def errorMessageOf (e : N8NExecution) : Option String :=
  ((e.data.bind (fun d => d.resultData)).bind (fun r => r.error)).bind
    (fun err => err.message)

/-! ## n8n-client.ts -/

/-- `mapN8NStatus` from n8n-client.ts: `if (stoppedAt) return 'failed';
if (finished) return 'completed'; return 'processing';` with JS
truthiness on the nullable string `stoppedAt`. -/
def mapN8NStatus (finished : Bool) (stoppedAt : Option String) : JobStatus :=
  if strTruthy stoppedAt then .failed
  else if finished then .completed
  else .processing

/-- `calculateProgress` from n8n-client.ts: 0 when
`execution.data?.resultData?.runData` is absent, otherwise
`Math.min((totalNodes / 10) * 100, 100)` where `totalNodes` is the
number of keys of `runData`. -/
def calculateProgress (e : N8NExecution) : ℚ :=
  match runDataOf e with
  | none => 0
  | some keys => min ((keys.length / 10 : ℚ) * 100) 100

/-- The fixed node-name → step-label table of `getCurrentStep`. -/
def stepMap : List (String × String) :=
  [("Upload Interviews Webhook", "Processing uploads..."),
   ("Process Input Files", "Analyzing files..."),
   ("Transcribe with Whisper", "Transcribing audio..."),
   ("4P Story Analysis", "Analyzing story structure..."),
   ("Update Google Spreadsheet", "Creating spreadsheet..."),
   ("Create Story Summary Doc", "Writing summary..."),
   ("Extract Soundbite Clips", "Extracting clips..."),
   ("Create Final Story Video", "Creating final video...")]

/-- `getCurrentStep` from n8n-client.ts: "Starting..." when `runData`
is absent; otherwise the step-table entry of the last key of `runData`,
or "Processing..." when the last key is missing from the table (also
when `runData` is an empty object, where `completedNodes[length - 1]`
is `undefined`). -/
def getCurrentStep (e : N8NExecution) : String :=
  match runDataOf e with
  | none => "Starting..."
  | some keys =>
    match keys.getLast? with
    | none => "Processing..."
    | some lastNode => (stepMap.lookup lastNode).getD "Processing..."

/-- The normalized `ProcessingStatus` record of types/storytelling.ts;
`results` is the raw `execution.data` object that `getExecutionStatus`
passes through. -/
structure ProcessingStatus where
  jobId : String
  status : JobStatus
  progress : ℚ
  currentStep : String
  results : Option ExecutionData
  error : Option String
deriving DecidableEq, Repr

/-- The pure body of `getExecutionStatus` from n8n-client.ts, applied to
the execution record fetched for `executionId`:
`results` is `execution.data` when `finished && !stoppedAt`, and
`error` is `execution.data?.resultData?.error?.message` when
`stoppedAt` is truthy. -/
def getExecutionStatus (executionId : String) (execution : N8NExecution) :
    ProcessingStatus :=
  { jobId := executionId
    status := mapN8NStatus execution.finished execution.stoppedAt
    progress := calculateProgress execution
    currentStep := getCurrentStep execution
    results :=
      if execution.finished && !(strTruthy execution.stoppedAt) then
        execution.data
      else none
    error :=
      if strTruthy execution.stoppedAt then errorMessageOf execution
      else none }

/-- A multer-style file as consumed by `uploadFiles`. -/
structure MulterFile where
  originalname : String
  buffer : List Nat
  mimetype : String
  size : Nat
deriving DecidableEq, Repr

/-- `uploadFiles` from n8n-client.ts: iterate the files in order,
POST each one (embedded as the oracle `post`, returning the
server-assigned `filepath` or the thrown transport error), collect the
paths; the first failure throws
`Failed to upload file ${file.originalname}: ${error}` and aborts. -/
def uploadFiles (post : MulterFile → Except String String) :
    List MulterFile → Except String (List String)
  | [] => .ok []
  | f :: rest =>
    match post f with
    | .error e => .error ("Failed to upload file " ++ f.originalname ++ ": " ++ e)
    | .ok path =>
      match uploadFiles post rest with
      | .error e => .error e
      | .ok paths => .ok (path :: paths)

/-! ## storytelling-tools.ts -/

/-- A theme as supplied in tool arguments: only `name` is required. -/
structure ToolTheme where
  name : String
  description : Option String
  priority : Option String
deriving DecidableEq, Repr

/-- The caller-supplied `outputOptions` argument, every field optional. -/
structure OutputOptionsArg where
  createSpreadsheet : Option Bool
  createSummary : Option Bool
  createVideoClips : Option Bool
  language : Option String
deriving DecidableEq, Repr

/-- A `MediaFile` of types/storytelling.ts as built by
`executeStartAnalysis` (no duration). -/
structure MediaFile where
  filename : String
  filepath : String
  size : Nat
  mimeType : String
deriving DecidableEq, Repr

/-- A fully-defaulted theme as sent to the workflow. -/
structure StoryTheme where
  name : String
  description : String
  priority : String
deriving DecidableEq, Repr

/-- Fully-defaulted output options as sent to the workflow. -/
structure OutputOptions where
  createSpreadsheet : Bool
  createSummary : Bool
  createVideoClips : Bool
  language : String
deriving DecidableEq, Repr

/-- The `StoryAnalysisRequest` payload sent to the workflow engine. -/
structure StoryAnalysisRequest where
  files : List MediaFile
  themes : List StoryTheme
  outputOptions : OutputOptions
deriving DecidableEq, Repr

/-- The fixed extension → MIME-type table of `getMimeTypeFromUrl`. -/
def mimeMap : List (String × String) :=
  [("mp4", "video/mp4"),
   ("avi", "video/avi"),
   ("mov", "video/quicktime"),
   ("mp3", "audio/mp3"),
   ("wav", "audio/wav"),
   ("flac", "audio/flac")]

/-- `getMimeTypeFromUrl` from storytelling-tools.ts: lowercase the part
after the last dot (`url.split('.').pop()`), look it up in the fixed
table, default `application/octet-stream`. -/
def getMimeTypeFromUrl (url : String) : String :=
  let ext := jsToLower (((jsSplitDot url).getLast?).getD "")
  (mimeMap.lookup ext).getD "application/octet-stream"

/-- The file-list construction of `executeStartAnalysis`: file number
`index + 1`, extension taken from the URL, size 0, MIME type from the
fixed table. -/
def buildMediaFiles (fileUrls : List String) : List MediaFile :=
  fileUrls.enum.map (fun p =>
    { filename := "interview_" ++ toString (p.1 + 1) ++ "." ++
        (((jsSplitDot p.2).getLast?).getD "")
      filepath := p.2
      size := 0
      mimeType := getMimeTypeFromUrl p.2 })

/-- The request construction of `executeStartAnalysis`: themes defaulted
with `description || ''` and `priority || 'medium'`; output options
defaulted with `x !== false` for the three booleans and
`language || 'en'`. -/
def buildStoryAnalysisRequest (themes : List ToolTheme)
    (outputOptions : OutputOptionsArg) (fileUrls : List String) :
    StoryAnalysisRequest :=
  { files := buildMediaFiles fileUrls
    themes := themes.map (fun t =>
      { name := t.name
        description := strOrDefault t.description ""
        priority := strOrDefault t.priority "medium" })
    outputOptions :=
      { createSpreadsheet := outputOptions.createSpreadsheet != some false
        createSummary := outputOptions.createSummary != some false
        createVideoClips := outputOptions.createVideoClips != some false
        language := strOrDefault outputOptions.language "en" } }

/-- `generateResultSummary` from storytelling-tools.ts. -/
def generateResultSummary (analysis : StoryAnalysis) : String :=
  "Analysis completed with " ++ toString analysis.soundbites.length ++
  " soundbites identified across " ++ toString analysis.people.length ++
  " key characters. The story explores themes of transformation through " ++
  toString analysis.purpose.length ++ " core purposes across " ++
  toString analysis.places.length ++ " significant locations."

/-- One entry of `keyCharacterArcs`. -/
structure CharacterArc where
  character : String
  transformation : String
deriving DecidableEq, Repr

/-- The object returned by `extractTransformationInsights`. -/
structure TransformationInsights where
  transformationMoments : List PlotEvent
  keyCharacterArcs : List CharacterArc
  emotionalHighpoints : List Soundbite
deriving DecidableEq, Repr

/-- `extractTransformationInsights` from storytelling-tools.ts:
plot entries whose `significance` contains "transformation", people
mapped to {character, transformation}, soundbites with
`emotionalImpact > 7`. -/
def extractTransformationInsights (analysis : StoryAnalysis) :
    TransformationInsights :=
  { transformationMoments :=
      analysis.plot.filter (fun p => jsIncludes p.significance "transformation")
    keyCharacterArcs :=
      analysis.people.map (fun person =>
        { character := person.name, transformation := person.significance })
    emotionalHighpoints :=
      analysis.soundbites.filter (fun s => s.emotionalImpact > 7) }

/-- The `insights` payload of a successful `get_story_insights` call,
one constructor per branch of the `switch`. -/
inductive Insights where
  | people (l : List Person)
  | places (l : List Place)
  | purposes (l : List Purpose)
  | plot (l : List PlotEvent)
  | soundbites (l : List Soundbite)
  | transformation (t : TransformationInsights)
  | all (a : StoryAnalysis)
deriving DecidableEq, Repr

/-- The `{success, ...}` envelope returned by `executeGetInsights`. -/
inductive InsightsResponse where
  | ok (insights : Insights)
  | err (error : String)
deriving DecidableEq, Repr

/-- The pure body of `executeGetInsights` from storytelling-tools.ts,
applied to the status fetched for the job: fails unless the status is
`completed` with results present, then switches on `insightType` with
the `all` (and any unknown) type falling to the default branch that
returns the whole analysis. -/
def executeGetInsights (status : ProcessingStatus) (insightType : String) :
    InsightsResponse :=
  match status.status, status.results with
  | .completed, some results =>
    let analysis := results.analysis
    if insightType = "people" then .ok (.people analysis.people)
    else if insightType = "places" then .ok (.places analysis.places)
    else if insightType = "purpose" then .ok (.purposes analysis.purpose)
    else if insightType = "plot" then .ok (.plot analysis.plot)
    else if insightType = "soundbites" then .ok (.soundbites analysis.soundbites)
    else if insightType = "transformation" then
      .ok (.transformation (extractTransformationInsights analysis))
    else .ok (.all analysis)
  | _, _ => .err "Analysis not completed yet or no results available"

/-- The `{success, ...}` envelope returned by `executeGetStatus`:
the completed-with-results branch additionally carries the analysis,
deliverables and generated summary; every other status returns the
basic shape with the optional error field. -/
inductive StatusResponse where
  | okCompleted (status : JobStatus) (progress : ℚ) (currentStep : String)
      (analysis : StoryAnalysis) (deliverables : StoryDeliverables)
      (summary : String)
  | okBasic (status : JobStatus) (progress : ℚ) (currentStep : String)
      (error : Option String)
deriving DecidableEq, Repr

/-- The pure body of `executeGetStatus` from storytelling-tools.ts,
applied to the execution record fetched for `jobId`. -/
def executeGetStatus (jobId : String) (execution : N8NExecution) :
    StatusResponse :=
  let status := getExecutionStatus jobId execution
  match status.status, status.results with
  | .completed, some results =>
    .okCompleted status.status status.progress status.currentStep
      results.analysis results.deliverables
      (generateResultSummary results.analysis)
  | st, _ => .okBasic st status.progress status.currentStep status.error

/-- The status field of an `executeGetStatus` response. -/
def StatusResponse.statusOf : StatusResponse → JobStatus
  | .okCompleted st _ _ _ _ _ => st
  | .okBasic st _ _ _ => st

/-- The error field of an `executeGetStatus` response (`undefined` on
the completed branch, which does not carry one). -/
def StatusResponse.errorOf : StatusResponse → Option String
  | .okCompleted _ _ _ _ _ _ => none
  | .okBasic _ _ _ e => e

/-- The number of completed nodes recorded in an execution's run data
(zero when the run data is absent): the quantity the progress
computation is measured against. -/
def nodeCount (e : N8NExecution) : ℕ :=
  ((runDataOf e).getD []).length

/-! ## Concrete records used by witnesses -/

/-- A small analysis payload: one matching and one non-matching plot
entry, one person, one high-impact and one low-impact soundbite. -/
def sampleAnalysis : StoryAnalysis :=
  { people := [⟨"Maria", "protagonist", "grew through hardship"⟩]
    places := [⟨"Lisbon", "childhood home", "origin"⟩]
    purpose := [⟨"belonging", "find home", "acceptance"⟩]
    plot := [⟨"arrival", 10, "a transformation of outlook"⟩,
             ⟨"setback", 20, "a dark moment"⟩]
    soundbites := [⟨"I changed", 1, 2, some "Maria", 9, "plot", "Family"⟩,
                   ⟨"It was fine", 3, 4, none, 3, "people", "Family"⟩]
    overallNarrative := "a story" }

/-- Deliverables object with every optional URL absent. -/
def noDeliverables : StoryDeliverables := ⟨none, none, none, none⟩

/-- Execution data carrying one completed node and the sample analysis. -/
def sampleData : ExecutionData :=
  ⟨some ⟨some ["Transcribe with Whisper"], none⟩, sampleAnalysis, noDeliverables⟩

/-- A finished execution with no stop timestamp: maps to `completed`. -/
def completedExecution : N8NExecution := ⟨true, none, some sampleData⟩

/-- An execution stopped abnormally with an engine error message. -/
def failedExecution : N8NExecution :=
  ⟨false, some "2024-01-01T00:00:00Z",
    some ⟨some ⟨some ["Process Input Files"], some ⟨some "disk full"⟩⟩,
      sampleAnalysis, noDeliverables⟩⟩

/-- An upload endpoint that accepts every file except `bad.mp3`. -/
def uploadOracle : MulterFile → Except String String :=
  fun f =>
    if f.originalname = "bad.mp3" then .error "ECONNRESET"
    else .ok ("/files/" ++ f.originalname)

/-- A sample file accepted by `uploadOracle`. -/
def fileA : MulterFile := ⟨"a.mp4", [0], "video/mp4", 1⟩

/-- A sample file accepted by `uploadOracle`. -/
def fileB : MulterFile := ⟨"b.mp3", [1], "audio/mp3", 1⟩

/-- The sample file rejected by `uploadOracle`. -/
def fileBad : MulterFile := ⟨"bad.mp3", [2], "audio/mp3", 1⟩

/-- A sample file accepted by `uploadOracle`, placed after the failing one. -/
def fileC : MulterFile := ⟨"c.wav", [3], "audio/wav", 1⟩


/-! ## Theorems settling the claims -/

/-- C1 counterexample: a record whose stop timestamp is the non-null
empty string is not mapped to `failed` — JS truthiness lets the empty
string fall through, so a finished record maps to `completed`. -/
theorem C1_counterexample :
    (some "" : Option String) ≠ none
    ∧ mapN8NStatus true (some "") ≠ JobStatus.failed
    ∧ mapN8NStatus true (some "") = JobStatus.completed := by decide

/-- C1 (amended): the mapped status is `failed` whenever a non-null,
non-empty stop timestamp is present, regardless of the finished flag;
when the stop timestamp is null or empty (falsy), the status is
`completed` if the finished flag is set and `processing` otherwise. -/
theorem C1_status_mapping (finished : Bool) (stoppedAt : Option String) :
    (∀ s, stoppedAt = some s → s ≠ "" →
      mapN8NStatus finished stoppedAt = JobStatus.failed)
    ∧ (strTruthy stoppedAt = false → finished = true →
      mapN8NStatus finished stoppedAt = JobStatus.completed)
    ∧ (strTruthy stoppedAt = false → finished = false →
      mapN8NStatus finished stoppedAt = JobStatus.processing) := by
  refine ⟨?_, ?_, ?_⟩
  · intro s hs hne
    subst hs
    simp [mapN8NStatus, strTruthy, hne]
  · intro h hf
    subst hf
    simp [mapN8NStatus, h]
  · intro h hf
    subst hf
    simp [mapN8NStatus, h]

/-- C1 witness: a concrete non-empty stop timestamp maps to `failed`
even with finished = false, and a finished record without a stop
timestamp maps to `completed`. -/
theorem C1_status_mapping_witness :
    mapN8NStatus false (some "2024-01-01T00:00:00Z") = JobStatus.failed
    ∧ mapN8NStatus true none = JobStatus.completed :=
  ⟨(C1_status_mapping false (some "2024-01-01T00:00:00Z")).1
      "2024-01-01T00:00:00Z" rfl (by decide),
   (C1_status_mapping true none).2.1 (by decide) rfl⟩

/-- C2: the computed progress is 0 when the record has no run data, and
otherwise equals min(100, 100 × completedNodeCount / 10) with the
expected node count fixed at 10. -/
theorem C2_progress (e : N8NExecution) :
    (runDataOf e = none → calculateProgress e = 0)
    ∧ (∀ keys, runDataOf e = some keys →
      calculateProgress e = min 100 ((100 : ℚ) * keys.length / 10)) := by
  constructor
  · intro h
    simp [calculateProgress, h]
  · intro keys h
    simp only [calculateProgress, h]
    rw [min_comm]
    ring_nf

/-- C2 witness: a record with three completed nodes has progress
min(100, 100 × 3 / 10). -/
theorem C2_progress_witness :
    calculateProgress ⟨false, none,
        some ⟨some ⟨some ["A", "B", "C"], none⟩, sampleAnalysis, noDeliverables⟩⟩ =
      min 100 ((100 : ℚ) * (["A", "B", "C"] : List String).length / 10) :=
  (C2_progress _).2 ["A", "B", "C"] rfl

/-- C3: the current-step label is "Starting..." when the record has no
run data; otherwise it is the step-table entry of the most-recently-
completed node name, and "Processing..." when that name is not in the
table. -/
theorem C3_current_step (e : N8NExecution) :
    (runDataOf e = none → getCurrentStep e = "Starting...")
    ∧ (∀ keys lastNode label, runDataOf e = some keys →
      keys.getLast? = some lastNode → stepMap.lookup lastNode = some label →
      getCurrentStep e = label)
    ∧ (∀ keys lastNode, runDataOf e = some keys →
      keys.getLast? = some lastNode → stepMap.lookup lastNode = none →
      getCurrentStep e = "Processing...") := by
  refine ⟨?_, ?_, ?_⟩
  · intro h
    simp [getCurrentStep, h]
  · intro keys lastNode label h hl hm
    simp [getCurrentStep, h, hl, hm]
  · intro keys lastNode h hl hm
    simp [getCurrentStep, h, hl, hm]

/-- C3 witness: the sample record whose last completed node is
"Transcribe with Whisper" gets the label "Transcribing audio...". -/
theorem C3_current_step_witness :
    getCurrentStep completedExecution = "Transcribing audio..." :=
  (C3_current_step completedExecution).2.1 ["Transcribe with Whisper"]
    "Transcribe with Whisper" "Transcribing audio..." rfl rfl rfl

/-- C4: when every file before position i uploads successfully and the
upload of the file at position i fails, the whole batch fails with the
error naming exactly that file, whatever the number of preceding files
and whatever follows; no partial-success value is returned. -/
theorem C4_upload_failure (post : MulterFile → Except String String)
    (pre : List MulterFile) (f : MulterFile) (rest : List MulterFile)
    (msg : String) (hok : ∀ g ∈ pre, ∃ p, post g = .ok p)
    (hfail : post f = .error msg) :
    uploadFiles post (pre ++ f :: rest) =
      .error ("Failed to upload file " ++ f.originalname ++ ": " ++ msg) := by
  induction pre with
  | nil =>
    simp [uploadFiles, hfail]
  | cons g gs ih =>
    obtain ⟨p, hp⟩ := hok g (List.mem_cons_self g gs)
    have ihr := ih (fun x hx => hok x (List.mem_cons_of_mem g hx))
    simp [uploadFiles, hp, ihr]

/-- C4 witness: in a four-file batch whose third file is rejected by the
endpoint, the upload fails with the error naming that third file. -/
theorem C4_upload_failure_witness :
    uploadFiles uploadOracle [fileA, fileB, fileBad, fileC] =
      .error ("Failed to upload file " ++ fileBad.originalname ++ ": " ++ "ECONNRESET") :=
  C4_upload_failure uploadOracle [fileA, fileB] fileBad [fileC] "ECONNRESET"
    (by intro g hg
        fin_cases hg <;> exact ⟨_, rfl⟩)
    rfl

/-- C5: on a completed status with results, insight type
"transformation" returns exactly the plot entries whose significance
contains the substring "transformation", the people mapped to
{character, transformation}, and the soundbites with emotional impact
strictly greater than 7. -/
theorem C5_transformation_insights (status : ProcessingStatus)
    (results : ExecutionData) (h1 : status.status = JobStatus.completed)
    (h2 : status.results = some results) :
    executeGetInsights status "transformation" =
      .ok (.transformation
        { transformationMoments := results.analysis.plot.filter
            (fun p => jsIncludes p.significance "transformation")
          keyCharacterArcs := results.analysis.people.map
            (fun person => ⟨person.name, person.significance⟩)
          emotionalHighpoints := results.analysis.soundbites.filter
            (fun s => s.emotionalImpact > 7) }) := by
  simp [executeGetInsights, h1, h2, extractTransformationInsights]

/-- C5 witness: on the sample completed execution, the transformation
view keeps the one matching plot entry, maps the one person to an arc,
and keeps only the impact-9 soundbite. -/
theorem C5_transformation_insights_witness :
    executeGetInsights (getExecutionStatus "job-1" completedExecution)
        "transformation" =
      .ok (.transformation
        ⟨[⟨"arrival", 10, "a transformation of outlook"⟩],
         [⟨"Maria", "grew through hardship"⟩],
         [⟨"I changed", 1, 2, some "Maria", 9, "plot", "Family"⟩]⟩) := by
  have h := C5_transformation_insights
    (getExecutionStatus "job-1" completedExecution) sampleData rfl rfl
  rw [h]
  decide

/-- C6: on a completed status with results, insight type "all" returns
the source analysis object unmodified. -/
theorem C6_all_insights (status : ProcessingStatus)
    (results : ExecutionData) (h1 : status.status = JobStatus.completed)
    (h2 : status.results = some results) :
    executeGetInsights status "all" = .ok (.all results.analysis) := by
  simp [executeGetInsights, h1, h2]

/-- C6 witness: on the sample completed execution, insight type "all"
returns the sample analysis itself. -/
theorem C6_all_insights_witness :
    executeGetInsights (getExecutionStatus "job-1" completedExecution) "all" =
      .ok (.all sampleAnalysis) :=
  C6_all_insights (getExecutionStatus "job-1" completedExecution) sampleData
    rfl rfl

/-- C7: when an execution has a truthy stop timestamp and its
`data.resultData.error.message` is m, the get-status response has
status `failed` and surfaces m verbatim as its error field. -/
theorem C7_failure_surfaced (jobId : String) (execution : N8NExecution)
    (ts m : String) (hstop : execution.stoppedAt = some ts) (hts : ts ≠ "")
    (hmsg : errorMessageOf execution = some m) :
    (executeGetStatus jobId execution).statusOf = JobStatus.failed
    ∧ (executeGetStatus jobId execution).errorOf = some m := by
  have htr : strTruthy execution.stoppedAt = true := by
    rw [hstop]
    simp [strTruthy, hts]
  constructor
  · simp [executeGetStatus, getExecutionStatus, mapN8NStatus, htr,
      StatusResponse.statusOf]
  · simp [executeGetStatus, getExecutionStatus, mapN8NStatus, htr, hmsg,
      StatusResponse.errorOf]

/-- C7 witness: the sample stopped execution whose engine error message
is "disk full" yields status `failed` with error "disk full". -/
theorem C7_failure_surfaced_witness :
    (executeGetStatus "job-2" failedExecution).statusOf = JobStatus.failed
    ∧ (executeGetStatus "job-2" failedExecution).errorOf = some "disk full" :=
  C7_failure_surfaced "job-2" failedExecution "2024-01-01T00:00:00Z"
    "disk full" rfl (by decide) rfl

/-- C8: start-analysis with themes = [{name: Family}] and
fileUrls = [a.mp4, b.mp3] builds exactly two media files with MIME
types video/mp4 and audio/mp3, the defaulted output options are all
true with language "en", and an unknown extension defaults to
application/octet-stream. -/
theorem C8_start_scenario :
    (buildStoryAnalysisRequest [⟨"Family", none, none⟩] ⟨none, none, none, none⟩
        ["a.mp4", "b.mp3"]).files.map (fun f => f.mimeType) =
      ["video/mp4", "audio/mp3"]
    ∧ (buildStoryAnalysisRequest [⟨"Family", none, none⟩]
        ⟨none, none, none, none⟩ ["a.mp4", "b.mp3"]).files.length = 2
    ∧ (buildStoryAnalysisRequest [⟨"Family", none, none⟩]
        ⟨none, none, none, none⟩ ["a.mp4", "b.mp3"]).outputOptions =
      ⟨true, true, true, "en"⟩
    ∧ getMimeTypeFromUrl "c.xyz" = "application/octet-stream" := by
  decide

/-- C9: the computed progress is monotone in the number of completed
nodes and never exceeds 100. -/
theorem C9_progress_monotone :
    (∀ e1 e2 : N8NExecution, nodeCount e1 ≤ nodeCount e2 →
      calculateProgress e1 ≤ calculateProgress e2)
    ∧ (∀ e : N8NExecution, calculateProgress e ≤ 100) := by
  have key : ∀ e : N8NExecution,
      calculateProgress e = min ((nodeCount e : ℚ) * 10) 100 := by
    intro e
    cases h : runDataOf e with
    | none =>
      simp only [calculateProgress, nodeCount, h, Option.getD_none,
        List.length_nil, Nat.cast_zero, zero_mul]
      rw [min_eq_left (by norm_num)]
    | some keys =>
      simp only [calculateProgress, nodeCount, h, Option.getD_some]
      congr 1
      ring
  constructor
  · intro e1 e2 hle
    rw [key, key]
    refine min_le_min (mul_le_mul_of_nonneg_right ?_ (by norm_num)) le_rfl
    exact_mod_cast hle
  · intro e
    rw [key]
    exact min_le_right _ _

/-- C9 witness: a record with one completed node has progress at most
that of the same record with two completed nodes. -/
theorem C9_progress_monotone_witness :
    calculateProgress ⟨false, none,
        some ⟨some ⟨some ["A"], none⟩, sampleAnalysis, noDeliverables⟩⟩ ≤
      calculateProgress ⟨false, none,
        some ⟨some ⟨some ["A", "B"], none⟩, sampleAnalysis, noDeliverables⟩⟩ :=
  C9_progress_monotone.1 _ _ (by decide)

/-- C10: in the normalized status, the results field is present only
when the mapped status is `completed`, and the error field is present
only when the mapped status is `failed`. -/
theorem C10_results_error_exclusive (jobId : String) (e : N8NExecution) :
    ((getExecutionStatus jobId e).results ≠ none →
      (getExecutionStatus jobId e).status = JobStatus.completed)
    ∧ ((getExecutionStatus jobId e).error ≠ none →
      (getExecutionStatus jobId e).status = JobStatus.failed) := by
  constructor
  · intro h
    by_cases hs : strTruthy e.stoppedAt
    · simp [getExecutionStatus, hs] at h
    · cases hf : e.finished
      · simp [getExecutionStatus, hs, hf] at h
      · simp [getExecutionStatus, mapN8NStatus, hs, hf]
  · intro h
    by_cases hs : strTruthy e.stoppedAt
    · simp [getExecutionStatus, mapN8NStatus, hs]
    · simp [getExecutionStatus, hs] at h

/-- C10 witness: the sample completed execution carries results and is
`completed`; the sample stopped execution carries an error and is
`failed`. -/
theorem C10_results_error_exclusive_witness :
    (getExecutionStatus "job-1" completedExecution).status = JobStatus.completed
    ∧ (getExecutionStatus "job-2" failedExecution).status = JobStatus.failed :=
  ⟨(C10_results_error_exclusive "job-1" completedExecution).1 (by decide),
   (C10_results_error_exclusive "job-2" failedExecution).2 (by decide)⟩

end Storytelling
